import Mathlib

set_option linter.unusedVariables false

/-!
Shallow embedding of the task-timer core (TasksService with the active-timer
registry and reconciliation loop, plus the EventsGateway fan-out).

Conventions of the embedding:
  * instants are `Int` milliseconds since the epoch, like `Date.getTime()`;
  * `Math.floor((a - b) / 1000)` becomes `Int.fdiv (a - b) 1000`;
  * nullable columns become `Option`;
  * a thrown exception becomes an error value; for the timer operations the
    result also records the state of the task entity at the moment of the
    throw (the service mutates the entity in place before some validations)
    and whether `tasksRepository.save` was reached;
  * the persistent store is a list of task rows, saved by primary key;
  * the `Map` of active timers is an association list keyed by task id,
    with the insertion-order update/insert semantics of a JS `Map`;
  * the asynchronous event emissions are modelled synchronously at the same
    `now` as the tick that scheduled them.
-/

inductive TimerType where
  | alarm
  | countdown
  deriving DecidableEq, Repr

inductive TimerStatus where
  | idle
  | running
  | paused
  | completed
  deriving DecidableEq, Repr

structure TaskRecord where
  id : Nat
  userId : Nat
  timerType : TimerType
  timerStatus : TimerStatus
  startedAt : Option Int
  pausedAt : Option Int
  remainingTime : Option Int
  alarmTime : Option Int
  countdownDuration : Option Int
  isCompleted : Bool
  deriving DecidableEq, Repr

structure ActiveTimer where
  taskId : Nat
  userId : Nat
  timerType : TimerType
  startedAt : Int
  endTime : Option Int
  remainingTime : Option Int
  pausedAt : Option Int
  deriving DecidableEq, Repr

inductive TimerError where
  | badRequest (msg : String)
  | notFound (msg : String)
  deriving DecidableEq, Repr

inductive Event where
  | completed (taskId : Nat) (userId : Nat)
  | update (userId : Nat) (taskId : Nat) (status : TimerStatus)
      (remainingTime : Option Int) (completedFlag : Bool)
  deriving DecidableEq, Repr

abbrev Registry := List (Nat × ActiveTimer)

/-- Lookup in the active-timer map (`this.activeTimers.get(taskId)`). -/
def Registry.get (reg : Registry) (k : Nat) : Option ActiveTimer :=
  match reg.find? (fun p => p.1 == k) with
  | some p => some p.2
  | none => none

/-- Insert-or-update in the active-timer map (`this.activeTimers.set`), with
the insertion-order semantics of a JS `Map`. -/
def Registry.set (reg : Registry) (k : Nat) (v : ActiveTimer) : Registry :=
  match reg with
  | [] => [(k, v)]
  | p :: rest => if p.1 = k then (k, v) :: rest else p :: Registry.set rest k v

/-- Removal from the active-timer map (`this.activeTimers.delete(taskId)`). -/
def Registry.delete (reg : Registry) (k : Nat) : Registry :=
  reg.filter (fun p => p.1 != k)

/-- Lookup of a task scoped by owner
(`tasksRepository.findOne({ where: { id: taskId, userId } })`). -/
def findTask (store : List TaskRecord) (taskId userId : Nat) : Option TaskRecord :=
  store.find? (fun t => t.id == taskId && t.userId == userId)

/-- Lookup of a task by id only
(`tasksRepository.findOne({ where: { id: taskId } })`). -/
def findTaskById (store : List TaskRecord) (taskId : Nat) : Option TaskRecord :=
  store.find? (fun t => t.id == taskId)

/-- Persistence by primary key (`tasksRepository.save(task)`): the row with
the same id is replaced. -/
def saveTask (store : List TaskRecord) (t : TaskRecord) : List TaskRecord :=
  store.map (fun u => if u.id = t.id then t else u)

/-- registerActiveTimer: builds the registry entry from a task.  Returns the
registry unchanged when `task.startedAt` is null.  The JS coercions
`task.pausedAt || undefined`, `task.alarmTime || undefined` and
`task.remainingTime || undefined` are modelled exactly: a numeric
`remainingTime` of `0` is falsy and becomes `undefined`. -/
def registerActiveTimer (task : TaskRecord) (reg : Registry) : Registry :=
  match task.startedAt with
  | none => reg
  | some s =>
    let base : ActiveTimer :=
      { taskId := task.id, userId := task.userId, timerType := task.timerType,
        startedAt := s, endTime := none, remainingTime := none,
        pausedAt := task.pausedAt }
    let entry : ActiveTimer :=
      match task.timerType with
      | TimerType.alarm => { base with endTime := task.alarmTime }
      | TimerType.countdown =>
        { base with remainingTime :=
            match task.remainingTime with
            | some r => if r = 0 then none else some r
            | none => none }
    Registry.set reg task.id entry

/-- loadActiveTimers: at process start, every record whose status is Running
or Paused is registered. -/
def loadActiveTimers (store : List TaskRecord) : Registry :=
  (store.filter (fun t =>
      t.timerStatus == TimerStatus.running || t.timerStatus == TimerStatus.paused)).foldl
    (fun reg t => registerActiveTimer t reg) []

/-- Outcome of one timer operation on one task: the error (if thrown), the
entity state when control left the method body, whether `save` was reached,
the registry afterwards, and the events emitted. -/
structure OpResult where
  error : Option TimerError
  task : TaskRecord
  persisted : Bool
  registry : Registry
  events : List Event
  deriving DecidableEq, Repr

/-- startTimer.  Note the source order for the alarm kind: `startedAt` is
assigned before the alarm instant is validated, and the validation is
`task.alarmTime < task.startedAt`, which passes when the two are equal. -/
def startTimer (task : TaskRecord) (reg : Registry) (now : Int) : OpResult :=
  if task.timerStatus = TimerStatus.running then
    { error := some (TimerError.badRequest "Task is already running"),
      task := task, persisted := false, registry := reg, events := [] }
  else
    match task.timerType with
    | TimerType.countdown =>
      -- `!task.countdownDuration` is truthy for both null and 0
      if task.countdownDuration = none ∨ task.countdownDuration = some 0 then
        { error := some (TimerError.badRequest "Countdown duration is not set"),
          task := task, persisted := false, registry := reg, events := [] }
      else
        let t2 := { task with startedAt := some now,
                              remainingTime := task.countdownDuration,
                              timerStatus := TimerStatus.running }
        { error := none, task := t2, persisted := true,
          registry := registerActiveTimer t2 reg, events := [] }
    | TimerType.alarm =>
      match task.alarmTime with
      | none =>
        { error := some (TimerError.badRequest "Alarm time is not set"),
          task := task, persisted := false, registry := reg, events := [] }
      | some alarmAt =>
        let t1 := { task with startedAt := some now }
        if alarmAt < now then
          { error := some (TimerError.badRequest "Alarm time Must be in the future"),
            task := t1, persisted := false, registry := reg, events := [] }
        else
          let t2 := { t1 with timerStatus := TimerStatus.running }
          { error := none, task := t2, persisted := true,
            registry := registerActiveTimer t2 reg, events := [] }

/-- pauseTimer.  The source sets `pausedAt` and the status, recomputes
`remainingTime`, saves, and updates the registry entry in place; it never
clears `startedAt`. -/
def pauseTimer (task : TaskRecord) (reg : Registry) (now : Int) : OpResult :=
  if task.timerType ≠ TimerType.countdown then
    { error := some (TimerError.badRequest
        "Pause operation is only valid for COUNTDOWN timer type"),
      task := task, persisted := false, registry := reg, events := [] }
  else if task.timerStatus ≠ TimerStatus.running then
    { error := some (TimerError.badRequest "Task is not running"),
      task := task, persisted := false, registry := reg, events := [] }
  else
    match task.startedAt with
    | none =>
      { error := some (TimerError.badRequest "Task has no start time"),
        task := task, persisted := false, registry := reg, events := [] }
    | some s =>
      let elapsedTime := Int.fdiv (now - s) 1000
      let newRemaining : Int :=
        max 0 (match task.remainingTime with
               | some r => r - elapsedTime
               | none => 0)
      let t2 := { task with pausedAt := some now,
                            timerStatus := TimerStatus.paused,
                            remainingTime := some newRemaining }
      let reg2 :=
        match Registry.get reg task.id with
        | none => reg
        | some a =>
          Registry.set reg task.id
            { a with pausedAt := some now, remainingTime := some newRemaining }
      { error := none, task := t2, persisted := true, registry := reg2, events := [] }

/-- resumeTimer.  Sets a fresh `startedAt`, clears `pausedAt`, and updates
the registry entry in place. -/
def resumeTimer (task : TaskRecord) (reg : Registry) (now : Int) : OpResult :=
  if task.timerType ≠ TimerType.countdown then
    { error := some (TimerError.badRequest
        "Resume operation is only valid for COUNTDOWN timer type"),
      task := task, persisted := false, registry := reg, events := [] }
  else if task.timerStatus ≠ TimerStatus.paused then
    { error := some (TimerError.badRequest "Task is not paused"),
      task := task, persisted := false, registry := reg, events := [] }
  else
    let t2 := { task with startedAt := some now,
                          timerStatus := TimerStatus.running,
                          pausedAt := none }
    let reg2 :=
      match Registry.get reg task.id with
      | none => reg
      | some a =>
        Registry.set reg task.id { a with startedAt := now, pausedAt := none }
    { error := none, task := t2, persisted := true, registry := reg2, events := [] }

/-- stopTimer.  Marks the task completed, deletes the registry entry, and
emits the completion event.  The source emits the payload with
`userId: task.id` (the task id, not the owner id); the embedding preserves
this faithfully. -/
def stopTimer (task : TaskRecord) (reg : Registry) : OpResult :=
  if task.timerStatus ≠ TimerStatus.running ∧ task.timerStatus ≠ TimerStatus.paused then
    { error := some (TimerError.badRequest "Timer is not active"),
      task := task, persisted := false, registry := reg, events := [] }
  else
    let t2 := { task with timerStatus := TimerStatus.completed, isCompleted := true }
    { error := none, task := t2, persisted := true,
      registry := Registry.delete reg task.id,
      events := [Event.completed task.id task.id] }

/-- resetTimer.  Always succeeds; returns the task to Idle, restores the
countdown remaining time, and deletes the registry entry.  `alarmTime` is
not touched. -/
def resetTimer (task : TaskRecord) (reg : Registry) : OpResult :=
  let t2 := { task with
      timerStatus := TimerStatus.idle,
      startedAt := none,
      pausedAt := none,
      remainingTime :=
        if task.timerType = TimerType.countdown then task.countdownDuration
        else task.remainingTime,
      isCompleted := false }
  { error := none, task := t2, persisted := true,
    registry := Registry.delete reg task.id, events := [] }

inductive TimerOperation where
  | start
  | stop
  | pause
  | resume
  | reset
  deriving DecidableEq, Repr

/-- Dispatch of one operation on a task already fetched from the store. -/
def opRun : TimerOperation → TaskRecord → Registry → Int → OpResult
  | TimerOperation.start, task, reg, now => startTimer task reg now
  | TimerOperation.stop, task, reg, _ => stopTimer task reg
  | TimerOperation.pause, task, reg, now => pauseTimer task reg now
  | TimerOperation.resume, task, reg, now => resumeTimer task reg now
  | TimerOperation.reset, task, reg, _ => resetTimer task reg

/-- Result of handleTimerOperation on the whole system state. -/
structure SysResult where
  error : Option TimerError
  store : List TaskRecord
  registry : Registry
  events : List Event
  deriving DecidableEq, Repr

/-- handleTimerOperation: fetches the task scoped by owner (a missing id and
an id owned by someone else fall through the same `findOne` and the same
`NotFoundException`), then dispatches the operation; the store is updated
only when the operation reached its `save`. -/
def handleTimerOperation (store : List TaskRecord) (reg : Registry)
    (taskId userId : Nat) (op : TimerOperation) (now : Int) : SysResult :=
  match findTask store taskId userId with
  | none =>
    { error := some (TimerError.notFound
        "Task with ID not found or you do not have access to it"),
      store := store, registry := reg, events := [] }
  | some task =>
    let r := opRun op task reg now
    { error := r.error,
      store := if r.persisted then saveTask store r.task else store,
      registry := r.registry,
      events := r.events }

/-- emitTimerUpdate, with the active-timer entry passed explicitly (the
source looks it up in `this.activeTimers`; the callers below pass the entry
under the task id at emission time). -/
def emitUpdateUsing (store : List TaskRecord) (activeTimer : Option ActiveTimer)
    (taskId userId : Nat) (now : Int) : List Event :=
  match findTaskById store taskId with
  | none => []
  | some task =>
    let remainingTime : Option Int :=
      match activeTimer with
      | some a =>
        if task.timerType = TimerType.countdown then
          let elapsedTime := Int.fdiv (now - a.startedAt) 1000
          some (max 0 (match a.remainingTime with
                       | some r => r - elapsedTime
                       | none => 0))
        else none
      | none => none
    [Event.update userId taskId task.timerStatus
      (if task.timerType = TimerType.countdown then remainingTime else none)
      task.isCompleted]

/-- emitTimerUpdate as in the source, looking the entry up in the registry. -/
def emitTimerUpdate (store : List TaskRecord) (reg : Registry)
    (taskId userId : Nat) (now : Int) : List Event :=
  emitUpdateUsing store (Registry.get reg taskId) taskId userId now

/-- System state threaded through the reconciliation loop. -/
structure TickState where
  store : List TaskRecord
  registry : Registry
  events : List Event
  deriving DecidableEq, Repr

/-- completeTimer: looks the entry up, loads the task by id, persists
Completed, deletes the entry, and emits the completion event with the
owner id (`task.userId` here, unlike stopTimer). -/
def completeTimer (st : TickState) (taskId : Nat) : TickState :=
  match Registry.get st.registry taskId with
  | none => st
  | some _ =>
    match findTaskById st.store taskId with
    | none => st
    | some task =>
      let t2 := { task with timerStatus := TimerStatus.completed, isCompleted := true }
      { store := saveTask st.store t2,
        registry := Registry.delete st.registry taskId,
        events := st.events ++ [Event.completed taskId task.userId] }

/-- Body of checkActiveTimers for one registry entry: paused entries are
skipped; an alarm entry completes when its end time has passed; a countdown
entry recomputes `max(0, remainingTime - elapsed)` from the entry startedAt,
overwrites the entry remaining time with that value, and completes at zero.
The update emission reads the entry after the overwrite (the emission is
deferred past the mutation in the source). -/
def processEntry (store : List TaskRecord) (now : Int) (p : Nat × ActiveTimer) :
    (Nat × ActiveTimer) × Option Nat × List Event :=
  let taskId := p.1
  let timer := p.2
  if timer.pausedAt.isSome then (p, none, [])
  else
    match timer.timerType with
    | TimerType.alarm =>
      match timer.endTime with
      | some e =>
        if e ≤ now then (p, some taskId, [])
        else (p, none, emitUpdateUsing store (some timer) taskId timer.userId now)
      | none => (p, none, emitUpdateUsing store (some timer) taskId timer.userId now)
    | TimerType.countdown =>
      match timer.remainingTime with
      | none => (p, none, [])
      | some r =>
        let elapsedSeconds := Int.fdiv (now - timer.startedAt) 1000
        let currentRemaining := max 0 (r - elapsedSeconds)
        let timer2 := { timer with remainingTime := some currentRemaining }
        if currentRemaining = 0 then ((taskId, timer2), some taskId, [])
        else ((taskId, timer2), none,
              emitUpdateUsing store (some timer2) taskId timer.userId now)

/-- checkActiveTimers: one reconciliation tick at instant `now`.  Every
entry is processed (mutating the entry in place and collecting completed
ids and update events), then completeTimer runs for each completed id. -/
def checkActiveTimers (st : TickState) (now : Int) : TickState :=
  let results := st.registry.map (processEntry st.store now)
  let reg1 : Registry := results.map (fun r => r.1)
  let completedTimerIds := results.filterMap (fun r => r.2.1)
  let updates := (results.map (fun r => r.2.2)).flatten
  let st1 : TickState := { store := st.store, registry := reg1,
                           events := st.events ++ updates }
  completedTimerIds.foldl completeTimer st1

/-- Result shape of checkTimerStatus. -/
structure StatusResult where
  status : TimerStatus
  remainingTime : Option Int
  completed : Bool
  deriving DecidableEq, Repr

/-- Shared tail of checkTimerStatus for a running alarm task: if the alarm
instant has passed, completion is persisted before returning. -/
def alarmStatusBranch (store : List TaskRecord) (task : TaskRecord) (now : Int) :
    StatusResult × List TaskRecord :=
  match task.alarmTime with
  | some alarmAt =>
    if alarmAt ≤ now then
      let t2 := { task with timerStatus := TimerStatus.completed, isCompleted := true }
      ({ status := t2.timerStatus, remainingTime := none, completed := t2.isCompleted },
       saveTask store t2)
    else
      ({ status := task.timerStatus, remainingTime := none, completed := task.isCompleted },
       store)
  | none =>
    ({ status := task.timerStatus, remainingTime := none, completed := task.isCompleted },
     store)

/-- checkTimerStatus: owner-scoped status query.  For a running countdown
with a registry entry, the remaining time is recomputed with the same
formula as the reconciliation loop, and a computed zero persists completion
before returning; a running alarm past its instant likewise persists
completion; a paused task reports the stored remaining time.  The returned
`remainingTime` field is `none` for every non-countdown task. -/
def checkTimerStatus (store : List TaskRecord) (reg : Registry)
    (taskId userId : Nat) (now : Int) :
    Except TimerError (StatusResult × List TaskRecord) :=
  match findTask store taskId userId with
  | none => Except.error (TimerError.notFound "Task with ID not found")
  | some task =>
    if task.timerStatus = TimerStatus.running then
      match Registry.get reg taskId with
      | some activeTimer =>
        if task.timerType = TimerType.countdown then
          let elapsedTime := Int.fdiv (now - activeTimer.startedAt) 1000
          let remainingTime : Int :=
            max 0 (match activeTimer.remainingTime with
                   | some r => r - elapsedTime
                   | none => 0)
          if remainingTime = 0 then
            let t2 := { task with timerStatus := TimerStatus.completed,
                                  isCompleted := true }
            Except.ok
              ({ status := t2.timerStatus, remainingTime := some remainingTime,
                 completed := t2.isCompleted },
               saveTask store t2)
          else
            Except.ok
              ({ status := task.timerStatus, remainingTime := some remainingTime,
                 completed := task.isCompleted },
               store)
        else
          Except.ok (alarmStatusBranch store task now)
      | none =>
        if task.timerType = TimerType.alarm then
          Except.ok (alarmStatusBranch store task now)
        else
          Except.ok
            ({ status := task.timerStatus, remainingTime := none,
               completed := task.isCompleted },
             store)
    else if task.timerStatus = TimerStatus.paused then
      Except.ok
        ({ status := task.timerStatus,
           remainingTime :=
             if task.timerType = TimerType.countdown then task.remainingTime
             else none,
           completed := task.isCompleted },
         store)
    else
      Except.ok
        ({ status := task.timerStatus, remainingTime := none,
           completed := task.isCompleted },
         store)

/-- Projection of the status-query result onto the returned value. -/
def statusOf (r : Except TimerError (StatusResult × List TaskRecord)) : Option StatusResult :=
  match r with
  | Except.ok p => some p.1
  | Except.error _ => none

/-- Projection of the status-query result onto the store afterwards. -/
def storeOf (store : List TaskRecord) (r : Except TimerError (StatusResult × List TaskRecord)) :
    List TaskRecord :=
  match r with
  | Except.ok p => p.2
  | Except.error _ => store

/-- Connection gateway state: owner id mapped to the open socket ids. -/
abbrev UserSockets := List (Nat × List Nat)

/-- Lookup of the socket list for a user
(`this.userSockets.get(userId) || []`). -/
def socketsOf (socks : UserSockets) (userId : Nat) : List Nat :=
  match socks.find? (fun p => p.1 == userId) with
  | some p => p.2
  | none => []

/-- sendTimerUpdateToUser: one emitted message per registered socket of the
user; a user with no sockets gets none and no error.  A delivered message is
the pair (socket id, task id). -/
def sendTimerUpdateToUser (socks : UserSockets) (userId taskId : Nat) :
    List (Nat × Nat) :=
  (socketsOf socks userId).map (fun socketId => (socketId, taskId))

/-- handleTimerCompletedEvent: the gateway forwards a completion event to
sendTimerUpdateToUser with the user id carried by the event payload. -/
def handleTimerCompletedEvent (socks : UserSockets) (taskId userId : Nat) :
    List (Nat × Nat) :=
  sendTimerUpdateToUser socks userId taskId

/-- Delivery of one event through the gateway handlers. -/
def deliverEvent (socks : UserSockets) : Event → List (Nat × Nat)
  | Event.completed taskId userId => handleTimerCompletedEvent socks taskId userId
  | Event.update userId taskId _ _ _ => sendTimerUpdateToUser socks userId taskId

/-- Delivery of a list of events in order. -/
def deliverEvents (socks : UserSockets) (evs : List Event) : List (Nat × Nat) :=
  (evs.map (deliverEvent socks)).flatten

/-- Number of completion events in an event trace. -/
def countCompleted (evs : List Event) : Nat :=
  (evs.filter (fun e => match e with
    | Event.completed _ _ => true
    | _ => false)).length

/-! ### Helper lemmas -/

theorem mem_of_findTask {store : List TaskRecord} {i u : Nat} {t : TaskRecord}
    (h : findTask store i u = some t) : t ∈ store ∧ t.id = i ∧ t.userId = u := by
  unfold findTask at h
  have hm := List.mem_of_find?_eq_some h
  have hp := List.find?_some h
  simp only [Bool.and_eq_true, beq_iff_eq] at hp
  exact ⟨hm, hp.1, hp.2⟩

theorem mem_saveTask_self {store : List TaskRecord} {t t2 : TaskRecord}
    (h : t ∈ store) (hid : t2.id = t.id) : t2 ∈ saveTask store t2 := by
  unfold saveTask
  refine List.mem_map.mpr ⟨t, h, ?_⟩
  simp [hid]

theorem opRun_error_frame (op : TimerOperation) (task : TaskRecord)
    (reg : Registry) (now : Int)
    (h : (opRun op task reg now).error.isSome = true) :
    (opRun op task reg now).persisted = false ∧
    (opRun op task reg now).registry = reg ∧
    (opRun op task reg now).events = [] := by
  cases op with
  | start =>
    by_cases hrun : task.timerStatus = TimerStatus.running
    · simp [opRun, startTimer, hrun]
    · cases htk : task.timerType with
      | countdown =>
        by_cases hdur : task.countdownDuration = none ∨ task.countdownDuration = some 0
        · simp [opRun, startTimer, hrun, htk, hdur]
        · simp [opRun, startTimer, hrun, htk, hdur] at h
      | alarm =>
        cases hat : task.alarmTime with
        | none => simp [opRun, startTimer, hrun, htk, hat]
        | some a =>
          by_cases hlt : a < now
          · simp [opRun, startTimer, hrun, htk, hat, hlt]
          · simp [opRun, startTimer, hrun, htk, hat, hlt] at h
  | pause =>
    by_cases hk : task.timerType = TimerType.countdown
    · by_cases hrun : task.timerStatus = TimerStatus.running
      · cases hst : task.startedAt with
        | none => simp [opRun, pauseTimer, hk, hrun, hst]
        | some s => simp [opRun, pauseTimer, hk, hrun, hst] at h
      · simp [opRun, pauseTimer, hk, hrun]
    · simp [opRun, pauseTimer, hk]
  | resume =>
    by_cases hk : task.timerType = TimerType.countdown
    · by_cases hp : task.timerStatus = TimerStatus.paused
      · simp [opRun, resumeTimer, hk, hp] at h
      · simp [opRun, resumeTimer, hk, hp]
    · simp [opRun, resumeTimer, hk]
  | stop =>
    by_cases hs : task.timerStatus ≠ TimerStatus.running ∧
        task.timerStatus ≠ TimerStatus.paused
    · simp [opRun, stopTimer, hs]
    · simp [opRun, stopTimer, hs] at h
  | reset =>
    simp [opRun, resetTimer] at h

/-! ### C8 -/

/-- C8: Reset succeeds from every state and returns the timer to Idle:
startedAt and pausedAt are cleared to null, isCompleted is set to false,
remainingTime is restored to countdownDuration for a Countdown timer, and an
Alarm timer has its alarmTime (and remainingTime) left untouched, regardless
of the prior state. -/
theorem C8_reset_returns_to_idle (task : TaskRecord) (reg : Registry) :
    (resetTimer task reg).error = none ∧
    (resetTimer task reg).persisted = true ∧
    (resetTimer task reg).task.timerStatus = TimerStatus.idle ∧
    (resetTimer task reg).task.startedAt = none ∧
    (resetTimer task reg).task.pausedAt = none ∧
    (resetTimer task reg).task.isCompleted = false ∧
    (resetTimer task reg).task.remainingTime =
      (if task.timerType = TimerType.countdown then task.countdownDuration
       else task.remainingTime) ∧
    (resetTimer task reg).task.alarmTime = task.alarmTime := by
  simp [resetTimer]

/-! ### C9 -/

/-- C9: a timer operation addressed to a task id that does not exist, or that
exists but is owned by a different user, fails with the not-found error of
the single shared throw site (hence literally identical shape in both
cases, and never a forbidden error), and leaves the store, the registry and
the event trace untouched. -/
theorem C9_not_found_uniform (store : List TaskRecord) (reg : Registry)
    (taskId userId : Nat) (op : TimerOperation) (now : Int)
    (h : ∀ t ∈ store, t.id = taskId → t.userId ≠ userId) :
    handleTimerOperation store reg taskId userId op now =
      { error := some (TimerError.notFound
          "Task with ID not found or you do not have access to it"),
        store := store, registry := reg, events := [] } := by
  have hf : findTask store taskId userId = none := by
    unfold findTask
    apply List.find?_eq_none.mpr
    intro t ht
    simp only [Bool.and_eq_true, beq_iff_eq, not_and]
    exact h t ht
  simp [handleTimerOperation, hf]

/-- Fixture: a task owned by user 2, addressed below by the caller user 3. -/
def foreignTask : TaskRecord :=
  { id := 1, userId := 2, timerType := TimerType.countdown,
    timerStatus := TimerStatus.idle, startedAt := none, pausedAt := none,
    remainingTime := none, alarmTime := none, countdownDuration := some 10,
    isCompleted := false }

/-- Witness for C9: a store holding task 1 owned by user 2; caller user 3
addresses task 1 — present but not owned — and gets the uniform not-found
outcome with nothing changed. -/
theorem C9_not_found_uniform_witness :
    handleTimerOperation [foreignTask] [] 1 3 TimerOperation.start 0 =
      { error := some (TimerError.notFound
          "Task with ID not found or you do not have access to it"),
        store := [foreignTask], registry := [], events := [] } :=
  C9_not_found_uniform [foreignTask] [] 1 3 TimerOperation.start 0 (by decide)

/-! ### C5 -/

/-- Fixture: an idle alarm task whose alarm instant is exactly 1000 ms. -/
def alarmAtNowTask : TaskRecord :=
  { id := 2, userId := 1, timerType := TimerType.alarm,
    timerStatus := TimerStatus.idle, startedAt := none, pausedAt := none,
    remainingTime := none, alarmTime := some 1000, countdownDuration := none,
    isCompleted := false }

/-- Counterexample for C5: Start on an Alarm timer whose alarmTime exactly
equals now succeeds and moves the timer to Running, although the claim says
every alarmTime not strictly in the future must fail validation (the source
guard is `task.alarmTime < task.startedAt`, which passes on equality). -/
theorem C5_cex_start_at_equal_instant :
    (startTimer alarmAtNowTask [] 1000).error = none ∧
    (startTimer alarmAtNowTask [] 1000).task.timerStatus = TimerStatus.running ∧
    (startTimer alarmAtNowTask [] 1000).task.startedAt = some 1000 ∧
    (startTimer alarmAtNowTask [] 1000).persisted = true := by
  decide

/-- C5 (amended): Start on an Alarm timer that is not already Running
succeeds, moving it to Running with startedAt = now, exactly when alarmTime
is set and greater than or equal to now; it fails with a validation error
when alarmTime is strictly earlier than now, and when alarmTime is unset. -/
theorem C5_alarm_start_guard (task : TaskRecord) (reg : Registry) (now : Int)
    (hk : task.timerType = TimerType.alarm)
    (hs : task.timerStatus ≠ TimerStatus.running) :
    (∀ a, task.alarmTime = some a → now ≤ a →
      (startTimer task reg now).error = none ∧
      (startTimer task reg now).task.timerStatus = TimerStatus.running ∧
      (startTimer task reg now).task.startedAt = some now) ∧
    (∀ a, task.alarmTime = some a → a < now →
      (startTimer task reg now).error =
        some (TimerError.badRequest "Alarm time Must be in the future")) ∧
    (task.alarmTime = none →
      (startTimer task reg now).error =
        some (TimerError.badRequest "Alarm time is not set")) := by
  refine ⟨?_, ?_, ?_⟩
  · intro a ha hle
    have hnlt : ¬ a < now := not_lt.mpr hle
    simp [startTimer, hk, hs, ha, hnlt]
  · intro a ha hlt
    simp [startTimer, hk, hs, ha, hlt]
  · intro ha
    simp [startTimer, hk, hs, ha]

/-- Witness for C5 (amended): the guard evaluated on the concrete fixture at
instants 900 (future alarm: success), 1200 (past alarm: validation error),
and on the fixture with alarmTime removed (unset: validation error). -/
theorem C5_alarm_start_guard_witness :
    ((startTimer alarmAtNowTask [] 900).error = none ∧
     (startTimer alarmAtNowTask [] 900).task.timerStatus = TimerStatus.running ∧
     (startTimer alarmAtNowTask [] 900).task.startedAt = some 900) ∧
    (startTimer alarmAtNowTask [] 1200).error =
      some (TimerError.badRequest "Alarm time Must be in the future") ∧
    (startTimer { alarmAtNowTask with alarmTime := none } [] 900).error =
      some (TimerError.badRequest "Alarm time is not set") :=
  ⟨(C5_alarm_start_guard alarmAtNowTask [] 900 rfl (by decide)).1 1000 rfl (by decide),
   (C5_alarm_start_guard alarmAtNowTask [] 1200 rfl (by decide)).2.1 1000 rfl (by decide),
   (C5_alarm_start_guard { alarmAtNowTask with alarmTime := none } [] 900 rfl
      (by decide)).2.2 rfl⟩

/-! ### C2 -/

/-- Fixture: a running countdown, started at instant 0 with 6 seconds
remaining recorded. -/
def runningCountdownTask : TaskRecord :=
  { id := 3, userId := 1, timerType := TimerType.countdown,
    timerStatus := TimerStatus.running, startedAt := some 0, pausedAt := none,
    remainingTime := some 6, alarmTime := none, countdownDuration := some 10,
    isCompleted := false }

/-- Counterexample for C2: Pause at instant 4000 on the running countdown
succeeds and computes remainingSeconds = 2, but does NOT clear startedAt to
null — after the operation both startedAt and pausedAt are non-null, contrary
to the claim. -/
theorem C2_cex_pause_keeps_startedAt :
    (pauseTimer runningCountdownTask [] 4000).error = none ∧
    (pauseTimer runningCountdownTask [] 4000).task.remainingTime = some 2 ∧
    (pauseTimer runningCountdownTask [] 4000).task.pausedAt = some 4000 ∧
    (pauseTimer runningCountdownTask [] 4000).task.startedAt = some 0 := by
  decide

/-- C2 (amended): Pause succeeds only for a Countdown timer in the Running
state with a non-null startedAt, failing with a validation error (and no
mutation, no persistence) otherwise; on success it sets remainingTime to
max(0, previous remainingTime − floor((now − startedAt)/1000)) (treating a
null remainingTime as 0), sets pausedAt to now and the status to Paused, and
leaves startedAt unchanged — so after a successful Pause startedAt and
pausedAt are both non-null. -/
theorem C2_pause_behaviour (task : TaskRecord) (reg : Registry) (now : Int) :
    (∀ s, task.timerType = TimerType.countdown →
      task.timerStatus = TimerStatus.running →
      task.startedAt = some s →
      (pauseTimer task reg now).error = none ∧
      (pauseTimer task reg now).persisted = true ∧
      (pauseTimer task reg now).task.timerStatus = TimerStatus.paused ∧
      (pauseTimer task reg now).task.pausedAt = some now ∧
      (pauseTimer task reg now).task.startedAt = some s ∧
      (pauseTimer task reg now).task.remainingTime =
        some (max 0 (match task.remainingTime with
                     | some r => r - Int.fdiv (now - s) 1000
                     | none => 0))) ∧
    ((task.timerType ≠ TimerType.countdown ∨
      task.timerStatus ≠ TimerStatus.running ∨ task.startedAt = none) →
      (pauseTimer task reg now).error.isSome = true ∧
      (pauseTimer task reg now).persisted = false ∧
      (pauseTimer task reg now).task = task) := by
  constructor
  · intro s hk hrun hst
    simp [pauseTimer, hk, hrun, hst]
  · intro hbad
    rcases hbad with hk | hrun | hst
    · simp [pauseTimer, hk]
    · by_cases hk : task.timerType = TimerType.countdown
      · simp [pauseTimer, hk, hrun]
      · simp [pauseTimer, hk]
    · by_cases hk : task.timerType = TimerType.countdown
      · by_cases hrun : task.timerStatus = TimerStatus.running
        · simp [pauseTimer, hk, hrun, hst]
        · simp [pauseTimer, hk, hrun]
      · simp [pauseTimer, hk]

/-- Witness for C2 (amended): the success clause at the concrete running
countdown paused at instant 4000, and the failure clause on an alarm task. -/
theorem C2_pause_behaviour_witness :
    ((pauseTimer runningCountdownTask [] 4000).error = none ∧
     (pauseTimer runningCountdownTask [] 4000).persisted = true ∧
     (pauseTimer runningCountdownTask [] 4000).task.timerStatus = TimerStatus.paused ∧
     (pauseTimer runningCountdownTask [] 4000).task.pausedAt = some 4000 ∧
     (pauseTimer runningCountdownTask [] 4000).task.startedAt = some 0 ∧
     (pauseTimer runningCountdownTask [] 4000).task.remainingTime =
       some (max 0 (match runningCountdownTask.remainingTime with
                    | some r => r - Int.fdiv ((4000 : Int) - 0) 1000
                    | none => 0))) ∧
    ((pauseTimer alarmAtNowTask [] 4000).error.isSome = true ∧
     (pauseTimer alarmAtNowTask [] 4000).persisted = false ∧
     (pauseTimer alarmAtNowTask [] 4000).task = alarmAtNowTask) :=
  ⟨(C2_pause_behaviour runningCountdownTask [] 4000).1 0 rfl rfl rfl,
   (C2_pause_behaviour alarmAtNowTask [] 4000).2 (Or.inl (by decide))⟩

/-! ### C4 -/

/-- Counterexample for C4: Start at instant 1001 on the idle alarm task whose
alarm instant 1000 is in the past fails validation and persists nothing, yet
the task record's startedAt field has been mutated from null to 1001 before
the throw — the record is not left unchanged as the claim states. -/
theorem C4_cex_failed_alarm_start_mutates :
    (startTimer alarmAtNowTask [] 1001).error.isSome = true ∧
    (startTimer alarmAtNowTask [] 1001).persisted = false ∧
    alarmAtNowTask.startedAt = none ∧
    (startTimer alarmAtNowTask [] 1001).task.startedAt = some 1001 := by
  decide

/-- C4 (amended): whenever a timer operation fails validation, nothing is
persisted, the registry is untouched, and no event is emitted; the in-memory
record is also left unchanged in every case except Start on an Alarm timer
whose alarm instant is strictly earlier than now, where startedAt has
already been set to now when the validation error is raised (the change is
discarded, not persisted). -/
theorem C4_validation_failure_frame (op : TimerOperation) (task : TaskRecord)
    (reg : Registry) (now : Int)
    (h : (opRun op task reg now).error.isSome = true) :
    (opRun op task reg now).persisted = false ∧
    (opRun op task reg now).registry = reg ∧
    (opRun op task reg now).events = [] ∧
    ((opRun op task reg now).task = task ∨
      (op = TimerOperation.start ∧ task.timerType = TimerType.alarm ∧
        (opRun op task reg now).task = { task with startedAt := some now })) := by
  obtain ⟨hp, hr, he⟩ := opRun_error_frame op task reg now h
  refine ⟨hp, hr, he, ?_⟩
  cases op with
  | start =>
    by_cases hrun : task.timerStatus = TimerStatus.running
    · left; simp [opRun, startTimer, hrun]
    · cases htk : task.timerType with
      | countdown =>
        by_cases hdur : task.countdownDuration = none ∨ task.countdownDuration = some 0
        · left; simp [opRun, startTimer, hrun, htk, hdur]
        · simp [opRun, startTimer, hrun, htk, hdur] at h
      | alarm =>
        cases hat : task.alarmTime with
        | none => left; simp [opRun, startTimer, hrun, htk, hat]
        | some a =>
          by_cases hlt : a < now
          · right
            refine ⟨rfl, rfl, ?_⟩
            simp [opRun, startTimer, hrun, htk, hat, hlt]
          · simp [opRun, startTimer, hrun, htk, hat, hlt] at h
  | pause =>
    left
    by_cases hk : task.timerType = TimerType.countdown
    · by_cases hrun : task.timerStatus = TimerStatus.running
      · cases hst : task.startedAt with
        | none => simp [opRun, pauseTimer, hk, hrun, hst]
        | some s => simp [opRun, pauseTimer, hk, hrun, hst] at h
      · simp [opRun, pauseTimer, hk, hrun]
    · simp [opRun, pauseTimer, hk]
  | resume =>
    left
    by_cases hk : task.timerType = TimerType.countdown
    · by_cases hp2 : task.timerStatus = TimerStatus.paused
      · simp [opRun, resumeTimer, hk, hp2] at h
      · simp [opRun, resumeTimer, hk, hp2]
    · simp [opRun, resumeTimer, hk]
  | stop =>
    left
    by_cases hs : task.timerStatus ≠ TimerStatus.running ∧
        task.timerStatus ≠ TimerStatus.paused
    · simp [opRun, stopTimer, hs]
    · simp [opRun, stopTimer, hs] at h
  | reset =>
    simp [opRun, resetTimer] at h

/-- Witness for C4 (amended): the frame evaluated at the failed alarm Start
of the counterexample input. -/
theorem C4_validation_failure_frame_witness :
    (opRun TimerOperation.start alarmAtNowTask [] 1001).persisted = false ∧
    (opRun TimerOperation.start alarmAtNowTask [] 1001).registry = [] ∧
    (opRun TimerOperation.start alarmAtNowTask [] 1001).events = [] ∧
    ((opRun TimerOperation.start alarmAtNowTask [] 1001).task = alarmAtNowTask ∨
      (TimerOperation.start = TimerOperation.start ∧
        alarmAtNowTask.timerType = TimerType.alarm ∧
        (opRun TimerOperation.start alarmAtNowTask [] 1001).task =
          { alarmAtNowTask with startedAt := some 1001 })) :=
  C4_validation_failure_frame TimerOperation.start alarmAtNowTask [] 1001 (by decide)

/-! ### C3 -/

/-- Fixture: a running countdown task with id 7 owned by user 5. -/
def stopFixtureTask : TaskRecord :=
  { id := 7, userId := 5, timerType := TimerType.countdown,
    timerStatus := TimerStatus.running, startedAt := some 0, pausedAt := none,
    remainingTime := some 10, alarmTime := none, countdownDuration := some 10,
    isCompleted := false }

/-- Fixture: gateway connection table — user 5 holds three sockets, user 9
holds one. -/
def socksFixture : UserSockets := [(5, [101, 102, 103]), (9, [201])]

/-- Fixture: system state holding task 7 live in store and registry. -/
def stopFixtureState : TickState :=
  { store := [stopFixtureTask],
    registry := loadActiveTimers [stopFixtureTask], events := [] }

/-- C3 evaluation at the failing input: stopTimer on task 7 (owner user 5)
emits the completion event with userId = 7, the TASK id, because the source
builds the payload with `userId: task.id`; fanning that event out over the
connection table delivers zero messages to the owner's three sockets (and
zero anywhere, since no user 7 is connected).  By contrast the
natural-completion path (completeTimer) emits the event with the true owner
id 5, which the gateway delivers exactly once per registered connection of
user 5 and to nobody else; delivering to the socketless user 42 yields no
messages and no error. -/
theorem C3_stop_fanout_wrong_user :
    (stopTimer stopFixtureTask []).events = [Event.completed 7 7] ∧
    deliverEvents socksFixture (stopTimer stopFixtureTask []).events = [] ∧
    (completeTimer stopFixtureState 7).events = [Event.completed 7 5] ∧
    deliverEvents socksFixture [Event.completed 7 5] =
      [(101, 7), (102, 7), (103, 7)] ∧
    sendTimerUpdateToUser socksFixture 42 7 = [] := by
  decide

/-! ### C1 -/

/-- Fixture: the countdown of the claim, resumed at instant 0 with 6 seconds
remaining; the store row and the registry entry both carry remaining 6. -/
def resumedCountdownTask : TaskRecord :=
  { id := 1, userId := 1, timerType := TimerType.countdown,
    timerStatus := TimerStatus.running, startedAt := some 0, pausedAt := none,
    remainingTime := some 6, alarmTime := none, countdownDuration := some 10,
    isCompleted := false }

/-- Fixture: system state right after the resume. -/
def c1Start : TickState :=
  { store := [resumedCountdownTask],
    registry := loadActiveTimers [resumedCountdownTask], events := [] }

/-- Fixture: the state after n reconciliation ticks, one second apart. -/
def c1After (n : Nat) : TickState :=
  (List.range n).foldl (fun st k => checkActiveTimers st (((k : Int) + 1) * 1000)) c1Start

/-- C1 evaluation at the failing input: a countdown resumed with 6 seconds
remaining.  Each tick deducts the full elapsed-since-startedAt from the
entry's remaining time, which the previous tick had already overwritten with
its own deduction (startedAt is never advanced), so the stored remaining
goes 6, 5, 3 and the timer completes at the THIRD tick — not after six ticks
with the remaining recomputed from the value recorded at Resume, as the
claim states.  Completion is persisted and emitted exactly once (no
duplicate completion events even after six ticks), and the first tick's
update event carries remaining 4, the doubly-deducted value, not 5. -/
theorem C1_tick_double_deduction :
    (Registry.get (c1After 1).registry 1).map ActiveTimer.remainingTime =
      some (some 5) ∧
    (c1After 1).events =
      [Event.update 1 1 TimerStatus.running (some 4) false] ∧
    (Registry.get (c1After 2).registry 1).map ActiveTimer.remainingTime =
      some (some 3) ∧
    Registry.get (c1After 3).registry 1 = none ∧
    (findTaskById (c1After 3).store 1).map
      (fun t => (t.timerStatus, t.isCompleted)) =
      some (TimerStatus.completed, true) ∧
    countCompleted (c1After 3).events = 1 ∧
    countCompleted (c1After 6).events = 1 := by
  decide

/-! ### C6 and C10: status query -/

theorem alarmStatusBranch_remaining_none (store : List TaskRecord)
    (task : TaskRecord) (now : Int) :
    (alarmStatusBranch store task now).1.remainingTime = none := by
  unfold alarmStatusBranch
  cases task.alarmTime with
  | none => rfl
  | some a => by_cases h : a ≤ now <;> simp [h]

/-- C6: the status query returns the live state at query time: for a Running
Countdown with a registry entry holding stored remaining r, the returned
remaining time is max(0, r − floor((now − startedAt)/1000)) — the same
formula as the reconciliation loop — together with the resulting status and
completed flag (Completed/true the moment the computation reaches zero); for
a Paused task the stored remainingTime is returned (null for a non-countdown
kind); an Alarm task never gets a remaining time. -/
theorem C6_status_query_live (store : List TaskRecord) (reg : Registry)
    (task : TaskRecord) (now : Int)
    (hfind : findTask store task.id task.userId = some task) :
    (∀ a r, task.timerStatus = TimerStatus.running →
      task.timerType = TimerType.countdown →
      Registry.get reg task.id = some a →
      a.remainingTime = some r →
      statusOf (checkTimerStatus store reg task.id task.userId now) =
        some { status :=
                 if max 0 (r - Int.fdiv (now - a.startedAt) 1000) = 0
                 then TimerStatus.completed else TimerStatus.running,
               remainingTime := some (max 0 (r - Int.fdiv (now - a.startedAt) 1000)),
               completed :=
                 if max 0 (r - Int.fdiv (now - a.startedAt) 1000) = 0
                 then true else task.isCompleted }) ∧
    (task.timerStatus = TimerStatus.paused →
      statusOf (checkTimerStatus store reg task.id task.userId now) =
        some { status := TimerStatus.paused,
               remainingTime :=
                 if task.timerType = TimerType.countdown then task.remainingTime
                 else none,
               completed := task.isCompleted }) ∧
    (task.timerType = TimerType.alarm →
      ∀ sr, statusOf (checkTimerStatus store reg task.id task.userId now) = some sr →
        sr.remainingTime = none) := by
  refine ⟨?_, ?_, ?_⟩
  · intro a r hrun hk ha har
    by_cases hz : max 0 (r - Int.fdiv (now - a.startedAt) 1000) = 0
    · simp [checkTimerStatus, hfind, hrun, hk, ha, har, statusOf, hz]
    · simp [checkTimerStatus, hfind, hrun, hk, ha, har, statusOf, hz]
  · intro hp
    simp [checkTimerStatus, hfind, hp, statusOf]
  · intro hk sr h
    have hk2 : task.timerType ≠ TimerType.countdown := by simp [hk]
    by_cases hrun : task.timerStatus = TimerStatus.running
    · cases hg : Registry.get reg task.id with
      | some a =>
        simp [checkTimerStatus, hfind, hrun, hg, hk2, statusOf] at h
        rw [← h]
        exact alarmStatusBranch_remaining_none store task now
      | none =>
        simp [checkTimerStatus, hfind, hrun, hg, hk, statusOf] at h
        rw [← h]
        exact alarmStatusBranch_remaining_none store task now
    · by_cases hp : task.timerStatus = TimerStatus.paused
      · simp [checkTimerStatus, hfind, hrun, hp, hk2, statusOf] at h
        rw [← h]
      · simp [checkTimerStatus, hfind, hrun, hp, statusOf] at h
        rw [← h]

/-- C10: the status query persists completion as a side effect: a Running
Countdown whose recomputed remaining time is zero, and a Running Alarm whose
alarm instant is ≤ now, are written to the store as
timerStatus = Completed, isCompleted = true before returning, and the
returned value reports status Completed with completed = true. -/
theorem C10_status_query_persists (store : List TaskRecord) (reg : Registry)
    (task : TaskRecord) (now : Int)
    (hfind : findTask store task.id task.userId = some task)
    (hrun : task.timerStatus = TimerStatus.running) :
    (∀ a, task.timerType = TimerType.countdown →
      Registry.get reg task.id = some a →
      max 0 (match a.remainingTime with
             | some r => r - Int.fdiv (now - a.startedAt) 1000
             | none => 0) = 0 →
      statusOf (checkTimerStatus store reg task.id task.userId now) =
        some { status := TimerStatus.completed, remainingTime := some 0,
               completed := true } ∧
      (∃ t2 ∈ storeOf store (checkTimerStatus store reg task.id task.userId now),
        t2.id = task.id ∧ t2.timerStatus = TimerStatus.completed ∧
        t2.isCompleted = true)) ∧
    (∀ al, task.timerType = TimerType.alarm → task.alarmTime = some al →
      al ≤ now →
      statusOf (checkTimerStatus store reg task.id task.userId now) =
        some { status := TimerStatus.completed, remainingTime := none,
               completed := true } ∧
      (∃ t2 ∈ storeOf store (checkTimerStatus store reg task.id task.userId now),
        t2.id = task.id ∧ t2.timerStatus = TimerStatus.completed ∧
        t2.isCompleted = true)) := by
  have hmem := (mem_of_findTask hfind).1
  constructor
  · intro a hk ha hz
    constructor
    · simp [checkTimerStatus, hfind, hrun, hk, ha, statusOf, hz]
    · refine ⟨{ task with timerStatus := TimerStatus.completed, isCompleted := true },
        ?_, rfl, rfl, rfl⟩
      simp [checkTimerStatus, hfind, hrun, hk, ha, storeOf, hz]
      exact mem_saveTask_self hmem rfl
  · intro al hk hat hle
    have hk2 : task.timerType ≠ TimerType.countdown := by simp [hk]
    cases hg : Registry.get reg task.id with
    | some a =>
      constructor
      · simp [checkTimerStatus, hfind, hrun, hg, hk2, statusOf,
              alarmStatusBranch, hat, hle]
      · refine ⟨{ task with timerStatus := TimerStatus.completed, isCompleted := true },
          ?_, rfl, rfl, rfl⟩
        simp [checkTimerStatus, hfind, hrun, hg, hk2, storeOf,
              alarmStatusBranch, hat, hle]
        exact mem_saveTask_self hmem rfl
    | none =>
      constructor
      · simp [checkTimerStatus, hfind, hrun, hg, hk, statusOf,
              alarmStatusBranch, hat, hle]
      · refine ⟨{ task with timerStatus := TimerStatus.completed, isCompleted := true },
          ?_, rfl, rfl, rfl⟩
        simp [checkTimerStatus, hfind, hrun, hg, hk, storeOf,
              alarmStatusBranch, hat, hle]
        exact mem_saveTask_self hmem rfl

/-- Fixture: a running countdown owned by user 4 (id 11). -/
def statusCountdownTask : TaskRecord :=
  { id := 11, userId := 4, timerType := TimerType.countdown,
    timerStatus := TimerStatus.running, startedAt := some 0, pausedAt := none,
    remainingTime := some 6, alarmTime := none, countdownDuration := some 6,
    isCompleted := false }

/-- Fixture: a paused countdown owned by user 4 (id 12). -/
def statusPausedTask : TaskRecord :=
  { id := 12, userId := 4, timerType := TimerType.countdown,
    timerStatus := TimerStatus.paused, startedAt := some 0,
    pausedAt := some 2000, remainingTime := some 4, alarmTime := none,
    countdownDuration := some 6, isCompleted := false }

/-- Fixture: a running alarm owned by user 4 (id 13), due at instant 5000. -/
def statusAlarmTask : TaskRecord :=
  { id := 13, userId := 4, timerType := TimerType.alarm,
    timerStatus := TimerStatus.running, startedAt := some 0, pausedAt := none,
    remainingTime := none, alarmTime := some 5000, countdownDuration := none,
    isCompleted := false }

/-- Fixture: the status-query store and its loaded registry. -/
def statusStore : List TaskRecord :=
  [statusCountdownTask, statusPausedTask, statusAlarmTask]

/-- Fixture: registry loaded from the status-query store. -/
def statusReg : Registry := loadActiveTimers statusStore

/-- Fixture: the registry entry for task 11 in the loaded registry. -/
def statusEntry11 : ActiveTimer :=
  { taskId := 11, userId := 4, timerType := TimerType.countdown,
    startedAt := 0, endTime := none, remainingTime := some 6, pausedAt := none }

/-- Witness for C6: the three clauses evaluated at instant 1000 on the
concrete store — the running countdown (task 11), the paused countdown
(task 12), and the running alarm (task 13). -/
theorem C6_status_query_live_witness :
    (statusOf (checkTimerStatus statusStore statusReg 11 4 1000) =
      some { status :=
               if max 0 (6 - Int.fdiv ((1000 : Int) - statusEntry11.startedAt) 1000) = 0
               then TimerStatus.completed else TimerStatus.running,
             remainingTime :=
               some (max 0 (6 - Int.fdiv ((1000 : Int) - statusEntry11.startedAt) 1000)),
             completed :=
               if max 0 (6 - Int.fdiv ((1000 : Int) - statusEntry11.startedAt) 1000) = 0
               then true else statusCountdownTask.isCompleted }) ∧
    (statusOf (checkTimerStatus statusStore statusReg 12 4 1000) =
      some { status := TimerStatus.paused,
             remainingTime :=
               if statusPausedTask.timerType = TimerType.countdown
               then statusPausedTask.remainingTime else none,
             completed := statusPausedTask.isCompleted }) ∧
    (({ status := TimerStatus.running, remainingTime := none,
        completed := false } : StatusResult).remainingTime = none) :=
  ⟨(C6_status_query_live statusStore statusReg statusCountdownTask 1000
      (by decide)).1 statusEntry11 6 rfl rfl (by decide) rfl,
   (C6_status_query_live statusStore statusReg statusPausedTask 1000
      (by decide)).2.1 rfl,
   (C6_status_query_live statusStore statusReg statusAlarmTask 1000
      (by decide)).2.2 rfl
     { status := TimerStatus.running, remainingTime := none, completed := false }
     (by decide)⟩

/-- Witness for C10: at instant 6999 the running countdown task 11 computes
remaining 0 and the query reports and persists completion; at instant 5000
the running alarm task 13 is due and the query reports and persists
completion. -/
theorem C10_status_query_persists_witness :
    (statusOf (checkTimerStatus statusStore statusReg 11 4 6999) =
      some { status := TimerStatus.completed, remainingTime := some 0,
             completed := true } ∧
     (∃ t2 ∈ storeOf statusStore (checkTimerStatus statusStore statusReg 11 4 6999),
        t2.id = statusCountdownTask.id ∧ t2.timerStatus = TimerStatus.completed ∧
        t2.isCompleted = true)) ∧
    (statusOf (checkTimerStatus statusStore statusReg 13 4 5000) =
      some { status := TimerStatus.completed, remainingTime := none,
             completed := true } ∧
     (∃ t2 ∈ storeOf statusStore (checkTimerStatus statusStore statusReg 13 4 5000),
        t2.id = statusAlarmTask.id ∧ t2.timerStatus = TimerStatus.completed ∧
        t2.isCompleted = true)) :=
  ⟨(C10_status_query_persists statusStore statusReg statusCountdownTask 6999
      (by decide) rfl).1 statusEntry11 rfl (by decide) (by decide),
   (C10_status_query_persists statusStore statusReg statusAlarmTask 5000
      (by decide) rfl).2 5000 rfl rfl (by decide)⟩

/-! ### C7: registry–store correspondence -/

/-- The registry holds exactly the live (Running or Paused) tasks of the
store. -/
abbrev regInv (store : List TaskRecord) (reg : Registry) : Prop :=
  ∀ t ∈ store, ((Registry.get reg t.id).isSome = true ↔
    (t.timerStatus = TimerStatus.running ∨ t.timerStatus = TimerStatus.paused))

/-- Every live task has a non-null startedAt (established by Start and kept
by Pause and Resume; registerActiveTimer skips records without it). -/
abbrev startedInv (store : List TaskRecord) : Prop :=
  ∀ t ∈ store, (t.timerStatus = TimerStatus.running ∨
    t.timerStatus = TimerStatus.paused) → t.startedAt.isSome = true

theorem Registry.get_cons (p : Nat × ActiveTimer) (rest : Registry) (k : Nat) :
    Registry.get (p :: rest) k =
      if p.1 = k then some p.2 else Registry.get rest k := by
  by_cases h : p.1 = k
  · rw [if_pos h]
    simp only [Registry.get]
    rw [List.find?_cons_of_pos]
    simp [h]
  · rw [if_neg h]
    simp only [Registry.get]
    rw [List.find?_cons_of_neg]
    simp [h]

theorem Registry.get_set_self (reg : Registry) (k : Nat) (v : ActiveTimer) :
    Registry.get (Registry.set reg k v) k = some v := by
  induction reg with
  | nil => simp [Registry.set, Registry.get_cons]
  | cons p rest ih =>
    by_cases h : p.1 = k
    · simp [Registry.set, h, Registry.get_cons]
    · simp [Registry.set, h, Registry.get_cons, ih]

theorem Registry.get_set_ne (reg : Registry) (k : Nat) (v : ActiveTimer)
    (k2 : Nat) (h : k2 ≠ k) :
    Registry.get (Registry.set reg k v) k2 = Registry.get reg k2 := by
  induction reg with
  | nil => simp [Registry.set, Registry.get_cons, Ne.symm h, Registry.get]
  | cons p rest ih =>
    by_cases hp : p.1 = k
    · simp [Registry.set, hp, Registry.get_cons, Ne.symm h]
    · simp [Registry.set, hp, Registry.get_cons, ih]

theorem Registry.get_delete_self (reg : Registry) (k : Nat) :
    Registry.get (Registry.delete reg k) k = none := by
  induction reg with
  | nil => rfl
  | cons p rest ih =>
    by_cases h : p.1 = k
    · simpa [Registry.delete, h] using ih
    · simpa [Registry.delete, h, Registry.get_cons] using ih

theorem Registry.get_delete_ne (reg : Registry) (k k2 : Nat) (h : k2 ≠ k) :
    Registry.get (Registry.delete reg k) k2 = Registry.get reg k2 := by
  induction reg with
  | nil => rfl
  | cons p rest ih =>
    by_cases hp : p.1 = k
    · rw [show Registry.delete (p :: rest) k = Registry.delete rest k by
        simp [Registry.delete, hp]]
      rw [ih, Registry.get_cons, if_neg]
      rw [hp]; exact fun hc => h hc.symm
    · rw [show Registry.delete (p :: rest) k = p :: Registry.delete rest k by
        simp [Registry.delete, hp]]
      rw [Registry.get_cons, Registry.get_cons, ih]

theorem Registry.get_map_isSome (f : Nat × ActiveTimer → Nat × ActiveTimer)
    (hf : ∀ p, (f p).1 = p.1) (reg : Registry) (k : Nat) :
    (Registry.get (reg.map f) k).isSome = (Registry.get reg k).isSome := by
  induction reg with
  | nil => rfl
  | cons p rest ih =>
    rw [List.map_cons, Registry.get_cons, Registry.get_cons, hf p]
    by_cases h : p.1 = k <;> simp [h, ih]

theorem saveTask_map_id (store : List TaskRecord) (t : TaskRecord) :
    (saveTask store t).map TaskRecord.id = store.map TaskRecord.id := by
  induction store with
  | nil => rfl
  | cons u rest ih =>
    simp only [saveTask, List.map_cons] at ih ⊢
    by_cases h : u.id = t.id
    · simp [h, ih]
    · simp [h, ih]

theorem id_injective {store : List TaskRecord}
    (hn : (store.map TaskRecord.id).Nodup)
    {u v : TaskRecord} (hu : u ∈ store) (hv : v ∈ store) (h : u.id = v.id) :
    u = v :=
  List.inj_on_of_nodup_map hn hu hv h

theorem registerActiveTimer_get_other (task : TaskRecord) (reg : Registry)
    (k : Nat) (h : k ≠ task.id) :
    Registry.get (registerActiveTimer task reg) k = Registry.get reg k := by
  cases hst : task.startedAt with
  | none => simp [registerActiveTimer, hst]
  | some s =>
    simp only [registerActiveTimer, hst]
    exact Registry.get_set_ne reg task.id _ k h

theorem registerActiveTimer_get_self (task : TaskRecord) (reg : Registry)
    (h : task.startedAt.isSome = true) :
    (Registry.get (registerActiveTimer task reg) task.id).isSome = true := by
  cases hst : task.startedAt with
  | none => rw [hst] at h; simp at h
  | some s => simp [registerActiveTimer, hst, Registry.get_set_self]

theorem foldl_register_get_other (l : List TaskRecord) :
    ∀ (reg : Registry) (k : Nat), (∀ t ∈ l, t.id ≠ k) →
    Registry.get (l.foldl (fun r t => registerActiveTimer t r) reg) k =
      Registry.get reg k := by
  induction l with
  | nil => intro reg k _; rfl
  | cons u rest ih =>
    intro reg k h
    rw [List.foldl_cons]
    rw [ih _ _ (fun t ht => h t (List.mem_cons_of_mem u ht))]
    exact registerActiveTimer_get_other u reg k
      (fun hc => h u (List.mem_cons_self u rest) hc.symm)

theorem foldl_register_get_mem (l : List TaskRecord) :
    ∀ (reg : Registry) (t : TaskRecord), (l.map TaskRecord.id).Nodup →
    t ∈ l → t.startedAt.isSome = true →
    (Registry.get (l.foldl (fun r u => registerActiveTimer u r) reg) t.id).isSome
      = true := by
  induction l with
  | nil => intro reg t _ hmem _; cases hmem
  | cons u rest ih =>
    intro reg t hnd hmem hst
    rw [List.foldl_cons]
    rcases List.mem_cons.mp hmem with rfl | hmem2
    · have hnotin : ∀ v ∈ rest, v.id ≠ t.id := by
        intro v hv hveq
        have hhead : t.id ∉ rest.map TaskRecord.id :=
          (List.nodup_cons.mp (by simpa using hnd)).1
        exact hhead (hveq ▸ List.mem_map_of_mem TaskRecord.id hv)
      rw [foldl_register_get_other rest _ _ hnotin]
      exact registerActiveTimer_get_self t reg hst
    · exact ih _ t (List.nodup_cons.mp (by simpa using hnd)).2 hmem2 hst

theorem opRun_task_id (op : TimerOperation) (task : TaskRecord)
    (reg : Registry) (now : Int) :
    (opRun op task reg now).task.id = task.id := by
  cases op with
  | start =>
    by_cases hrun : task.timerStatus = TimerStatus.running
    · simp [opRun, startTimer, hrun]
    · cases htk : task.timerType with
      | countdown =>
        by_cases hdur : task.countdownDuration = none ∨
            task.countdownDuration = some 0 <;>
          simp [opRun, startTimer, hrun, htk, hdur]
      | alarm =>
        cases hat : task.alarmTime with
        | none => simp [opRun, startTimer, hrun, htk, hat]
        | some a =>
          by_cases hlt : a < now <;> simp [opRun, startTimer, hrun, htk, hat, hlt]
  | pause =>
    by_cases hk : task.timerType = TimerType.countdown
    · by_cases hrun : task.timerStatus = TimerStatus.running
      · cases hst : task.startedAt <;> simp [opRun, pauseTimer, hk, hrun, hst]
      · simp [opRun, pauseTimer, hk, hrun]
    · simp [opRun, pauseTimer, hk]
  | resume =>
    by_cases hk : task.timerType = TimerType.countdown
    · by_cases hp : task.timerStatus = TimerStatus.paused <;>
        simp [opRun, resumeTimer, hk, hp]
    · simp [opRun, resumeTimer, hk]
  | stop =>
    by_cases hs : task.timerStatus ≠ TimerStatus.running ∧
        task.timerStatus ≠ TimerStatus.paused <;>
      simp [opRun, stopTimer, hs]
  | reset =>
    simp [opRun, resetTimer]

theorem opRun_registry_other (op : TimerOperation) (task : TaskRecord)
    (reg : Registry) (now : Int) (k : Nat) (hk : k ≠ task.id) :
    Registry.get (opRun op task reg now).registry k = Registry.get reg k := by
  cases op with
  | start =>
    by_cases hrun : task.timerStatus = TimerStatus.running
    · simp [opRun, startTimer, hrun]
    · cases htk : task.timerType with
      | countdown =>
        by_cases hdur : task.countdownDuration = none ∨
            task.countdownDuration = some 0
        · simp [opRun, startTimer, hrun, htk, hdur]
        · simp only [opRun, startTimer, if_neg hrun, htk, if_neg hdur]
          exact registerActiveTimer_get_other _ reg k hk
      | alarm =>
        cases hat : task.alarmTime with
        | none => simp [opRun, startTimer, hrun, htk, hat]
        | some a =>
          by_cases hlt : a < now
          · simp [opRun, startTimer, hrun, htk, hat, hlt]
          · simp only [opRun, startTimer, if_neg hrun, htk, hat, if_neg hlt]
            exact registerActiveTimer_get_other _ reg k hk
  | pause =>
    by_cases hkk : task.timerType = TimerType.countdown
    · by_cases hrun : task.timerStatus = TimerStatus.running
      · cases hst : task.startedAt with
        | none => simp [opRun, pauseTimer, hkk, hrun, hst]
        | some s =>
          simp only [opRun, pauseTimer, hkk, hrun, hst]
          cases hg : Registry.get reg task.id with
          | none => simp [hg]
          | some a =>
            simp only [hg]
            exact Registry.get_set_ne reg task.id _ k hk
      · simp [opRun, pauseTimer, hkk, hrun]
    · simp [opRun, pauseTimer, hkk]
  | resume =>
    by_cases hkk : task.timerType = TimerType.countdown
    · by_cases hp : task.timerStatus = TimerStatus.paused
      · simp only [opRun, resumeTimer, hkk, hp]
        cases hg : Registry.get reg task.id with
        | none => simp [hg]
        | some a =>
          simp only [hg]
          exact Registry.get_set_ne reg task.id _ k hk
      · simp [opRun, resumeTimer, hkk, hp]
    · simp [opRun, resumeTimer, hkk]
  | stop =>
    by_cases hs : task.timerStatus ≠ TimerStatus.running ∧
        task.timerStatus ≠ TimerStatus.paused
    · simp [opRun, stopTimer, hs]
    · simp only [opRun, stopTimer, if_neg hs]
      exact Registry.get_delete_ne reg task.id k hk
  | reset =>
    simp only [opRun, resetTimer]
    exact Registry.get_delete_ne reg task.id k hk

theorem opRun_success_persisted (op : TimerOperation) (task : TaskRecord)
    (reg : Registry) (now : Int)
    (hok : (opRun op task reg now).error = none) :
    (opRun op task reg now).persisted = true := by
  cases op with
  | start =>
    by_cases hrun : task.timerStatus = TimerStatus.running
    · simp [opRun, startTimer, hrun] at hok
    · cases htk : task.timerType with
      | countdown =>
        by_cases hdur : task.countdownDuration = none ∨
            task.countdownDuration = some 0
        · simp [opRun, startTimer, hrun, htk, hdur] at hok
        · simp [opRun, startTimer, hrun, htk, hdur]
      | alarm =>
        cases hat : task.alarmTime with
        | none => simp [opRun, startTimer, hrun, htk, hat] at hok
        | some a =>
          by_cases hlt : a < now
          · simp [opRun, startTimer, hrun, htk, hat, hlt] at hok
          · simp [opRun, startTimer, hrun, htk, hat, hlt]
  | pause =>
    by_cases hk : task.timerType = TimerType.countdown
    · by_cases hrun : task.timerStatus = TimerStatus.running
      · cases hst : task.startedAt with
        | none => simp [opRun, pauseTimer, hk, hrun, hst] at hok
        | some s => simp [opRun, pauseTimer, hk, hrun, hst]
      · simp [opRun, pauseTimer, hk, hrun] at hok
    · simp [opRun, pauseTimer, hk] at hok
  | resume =>
    by_cases hk : task.timerType = TimerType.countdown
    · by_cases hp : task.timerStatus = TimerStatus.paused
      · simp [opRun, resumeTimer, hk, hp]
      · simp [opRun, resumeTimer, hk, hp] at hok
    · simp [opRun, resumeTimer, hk] at hok
  | stop =>
    by_cases hs : task.timerStatus ≠ TimerStatus.running ∧
        task.timerStatus ≠ TimerStatus.paused
    · simp [opRun, stopTimer, hs] at hok
    · simp [opRun, stopTimer, hs]
  | reset =>
    simp [opRun, resetTimer]

theorem opRun_self_live (op : TimerOperation) (task : TaskRecord)
    (reg : Registry) (now : Int)
    (hok : (opRun op task reg now).error = none)
    (hpre : (Registry.get reg task.id).isSome = true ↔
      (task.timerStatus = TimerStatus.running ∨
       task.timerStatus = TimerStatus.paused)) :
    ((Registry.get (opRun op task reg now).registry
        (opRun op task reg now).task.id).isSome = true ↔
      ((opRun op task reg now).task.timerStatus = TimerStatus.running ∨
       (opRun op task reg now).task.timerStatus = TimerStatus.paused)) := by
  cases op with
  | start =>
    by_cases hrun : task.timerStatus = TimerStatus.running
    · simp [opRun, startTimer, hrun] at hok
    · cases htk : task.timerType with
      | countdown =>
        by_cases hdur : task.countdownDuration = none ∨
            task.countdownDuration = some 0
        · simp [opRun, startTimer, hrun, htk, hdur] at hok
        · simp only [opRun, startTimer, if_neg hrun, htk, if_neg hdur]
          refine iff_of_true ?_ (by simp)
          exact registerActiveTimer_get_self _ reg rfl
      | alarm =>
        cases hat : task.alarmTime with
        | none => simp [opRun, startTimer, hrun, htk, hat] at hok
        | some a =>
          by_cases hlt : a < now
          · simp [opRun, startTimer, hrun, htk, hat, hlt] at hok
          · simp only [opRun, startTimer, if_neg hrun, htk, hat, if_neg hlt]
            refine iff_of_true ?_ (by simp)
            exact registerActiveTimer_get_self _ reg rfl
  | pause =>
    by_cases hk : task.timerType = TimerType.countdown
    · by_cases hrun : task.timerStatus = TimerStatus.running
      · cases hst : task.startedAt with
        | none => simp [opRun, pauseTimer, hk, hrun, hst] at hok
        | some s =>
          have hsome : (Registry.get reg task.id).isSome = true :=
            hpre.mpr (Or.inl hrun)
          obtain ⟨a, hga⟩ := Option.isSome_iff_exists.mp hsome
          simp only [opRun, pauseTimer, hk, hrun, hst, hga]
          simp [Registry.get_set_self]
      · simp [opRun, pauseTimer, hk, hrun] at hok
    · simp [opRun, pauseTimer, hk] at hok
  | resume =>
    by_cases hk : task.timerType = TimerType.countdown
    · by_cases hp : task.timerStatus = TimerStatus.paused
      · have hsome : (Registry.get reg task.id).isSome = true :=
          hpre.mpr (Or.inr hp)
        obtain ⟨a, hga⟩ := Option.isSome_iff_exists.mp hsome
        simp only [opRun, resumeTimer, hk, hp, hga]
        simp [Registry.get_set_self]
      · simp [opRun, resumeTimer, hk, hp] at hok
    · simp [opRun, resumeTimer, hk] at hok
  | stop =>
    by_cases hs : task.timerStatus ≠ TimerStatus.running ∧
        task.timerStatus ≠ TimerStatus.paused
    · simp [opRun, stopTimer, hs] at hok
    · simp only [opRun, stopTimer, if_neg hs]
      simp [Registry.get_delete_self]
  | reset =>
    simp only [opRun, resetTimer]
    simp [Registry.get_delete_self]

theorem handle_preserves_regInv (store : List TaskRecord) (reg : Registry)
    (taskId userId : Nat) (op : TimerOperation) (now : Int)
    (hn : (store.map TaskRecord.id).Nodup)
    (hinv : regInv store reg) :
    regInv (handleTimerOperation store reg taskId userId op now).store
           (handleTimerOperation store reg taskId userId op now).registry := by
  cases hft : findTask store taskId userId with
  | none => simp only [handleTimerOperation, hft]; exact hinv
  | some task =>
    obtain ⟨hmem, hid, huid⟩ := mem_of_findTask hft
    by_cases herr : (opRun op task reg now).error.isSome = true
    · obtain ⟨hp, hr, he⟩ := opRun_error_frame op task reg now herr
      have heq : handleTimerOperation store reg taskId userId op now =
          { error := (opRun op task reg now).error, store := store,
            registry := reg, events := (opRun op task reg now).events } := by
        simp [handleTimerOperation, hft, hp, hr]
      rw [heq]
      exact hinv
    · have hok : (opRun op task reg now).error = none := by
        cases h2 : (opRun op task reg now).error with
        | none => rfl
        | some e => rw [h2] at herr; simp at herr
      have hpers := opRun_success_persisted op task reg now hok
      simp only [handleTimerOperation, hft, hpers, if_pos]
      intro u hu
      obtain ⟨v, hv, hfu⟩ := List.mem_map.mp hu
      by_cases hvid : v.id = (opRun op task reg now).task.id
      · have hvid2 : v.id = task.id := by rw [hvid, opRun_task_id]
        have hvt : v = task := id_injective hn hv hmem (by rw [hvid2])
        have hu2 : u = (opRun op task reg now).task := by
          rw [← hfu]; simp [hvid]
        subst hu2
        have hpre := hinv task hmem
        rw [hvt] at hvid2
        have := opRun_self_live op task reg now hok hpre
        exact this
      · have hu2 : u = v := by rw [← hfu]; simp [hvid]
        subst hu2
        have hne : u.id ≠ task.id := by
          rw [opRun_task_id] at hvid; exact hvid
        rw [opRun_registry_other op task reg now u.id hne]
        exact hinv u hv

theorem processEntry_key (store : List TaskRecord) (now : Int)
    (p : Nat × ActiveTimer) :
    ((processEntry store now p).1).1 = p.1 := by
  by_cases hp : p.2.pausedAt.isSome
  · simp [processEntry, hp]
  · cases htk : p.2.timerType with
    | alarm =>
      cases he : p.2.endTime with
      | none => simp [processEntry, hp, htk, he]
      | some e => by_cases h2 : e ≤ now <;> simp [processEntry, hp, htk, he, h2]
    | countdown =>
      cases hr : p.2.remainingTime with
      | none => simp [processEntry, hp, htk, hr]
      | some r =>
        by_cases hz : max 0 (r - Int.fdiv (now - p.2.startedAt) 1000) = 0 <;>
          simp [processEntry, hp, htk, hr, hz]

theorem completeTimer_preserves (st : TickState) (tid : Nat)
    (hn : (st.store.map TaskRecord.id).Nodup)
    (hinv : regInv st.store st.registry) :
    ((completeTimer st tid).store.map TaskRecord.id).Nodup ∧
    regInv (completeTimer st tid).store (completeTimer st tid).registry := by
  cases hg : Registry.get st.registry tid with
  | none => simp only [completeTimer, hg]; exact ⟨hn, hinv⟩
  | some a =>
    cases hf : findTaskById st.store tid with
    | none => simp only [completeTimer, hg, hf]; exact ⟨hn, hinv⟩
    | some task =>
      have hmem : task ∈ st.store := List.mem_of_find?_eq_some hf
      have htid : task.id = tid := by
        have h2 := List.find?_some hf
        simpa using h2
      simp only [completeTimer, hg, hf]
      constructor
      · rw [saveTask_map_id]; exact hn
      · intro u hu
        obtain ⟨v, hv, hfu⟩ := List.mem_map.mp hu
        by_cases hvid : v.id = task.id
        · have hu2 : u.id = tid ∧ u.timerStatus = TimerStatus.completed := by
            rw [← hfu]
            simp [hvid, htid]
          rw [hu2.1, Registry.get_delete_self]
          simp [hu2.2]
        · have hu2 : u = v := by rw [← hfu]; simp [hvid]
          subst hu2
          have hne : u.id ≠ tid := by rw [← htid]; exact hvid
          rw [Registry.get_delete_ne st.registry tid u.id hne]
          exact hinv u hv

theorem foldl_completeTimer_preserves (ids : List Nat) :
    ∀ st : TickState, (st.store.map TaskRecord.id).Nodup →
    regInv st.store st.registry →
    (((ids.foldl completeTimer st).store.map TaskRecord.id).Nodup ∧
     regInv (ids.foldl completeTimer st).store
            (ids.foldl completeTimer st).registry) := by
  induction ids with
  | nil => intro st hn hinv; exact ⟨hn, hinv⟩
  | cons i rest ih =>
    intro st hn hinv
    rw [List.foldl_cons]
    obtain ⟨hn2, hinv2⟩ := completeTimer_preserves st i hn hinv
    exact ih _ hn2 hinv2

theorem tick_preserves_regInv (st : TickState) (now : Int)
    (hn : (st.store.map TaskRecord.id).Nodup)
    (hinv : regInv st.store st.registry) :
    regInv (checkActiveTimers st now).store (checkActiveTimers st now).registry := by
  have hkey : ∀ p, ((fun q => (processEntry st.store now q).1) p).1 = p.1 :=
    fun p => processEntry_key st.store now p
  have hinv1 : regInv st.store
      ((st.registry.map (processEntry st.store now)).map (fun r => r.1)) := by
    intro t ht
    rw [List.map_map]
    simp only [Function.comp_def]
    rw [Registry.get_map_isSome (fun q => (processEntry st.store now q).1) hkey]
    exact hinv t ht
  have heq : checkActiveTimers st now =
      ((st.registry.map (processEntry st.store now)).filterMap
          (fun r => r.2.1)).foldl completeTimer
        { store := st.store,
          registry := (st.registry.map (processEntry st.store now)).map
            (fun r => r.1),
          events := st.events ++
            ((st.registry.map (processEntry st.store now)).map
              (fun r => r.2.2)).flatten } := rfl
  rw [heq]
  exact (foldl_completeTimer_preserves
    ((st.registry.map (processEntry st.store now)).filterMap (fun r => r.2.1))
    { store := st.store,
      registry := (st.registry.map (processEntry st.store now)).map
        (fun r => r.1),
      events := st.events ++
        ((st.registry.map (processEntry st.store now)).map
          (fun r => r.2.2)).flatten }
    hn hinv1).2

theorem load_establishes_regInv (store : List TaskRecord)
    (hn : (store.map TaskRecord.id).Nodup)
    (hs : startedInv store) :
    regInv store (loadActiveTimers store) := by
  intro t ht
  constructor
  · intro hsome
    by_contra hlive
    have hnotin : ∀ v ∈ store.filter (fun u =>
        u.timerStatus == TimerStatus.running ||
        u.timerStatus == TimerStatus.paused), v.id ≠ t.id := by
      intro v hv hveq
      have hv2 := List.mem_of_mem_filter hv
      have hvp := List.of_mem_filter hv
      have hvt : v = t := id_injective hn hv2 ht hveq
      subst hvt
      simp only [Bool.or_eq_true, beq_iff_eq] at hvp
      exact hlive hvp
    unfold loadActiveTimers at hsome
    rw [foldl_register_get_other _ _ _ hnotin] at hsome
    simp [Registry.get] at hsome
  · intro hlive
    have hts : t.startedAt.isSome = true := hs t ht hlive
    have htf : t ∈ store.filter (fun u =>
        u.timerStatus == TimerStatus.running ||
        u.timerStatus == TimerStatus.paused) := by
      refine List.mem_filter.mpr ⟨ht, ?_⟩
      rcases hlive with h | h <;> simp [h]
    have hnd2 : ((store.filter (fun u =>
        u.timerStatus == TimerStatus.running ||
        u.timerStatus == TimerStatus.paused)).map TaskRecord.id).Nodup := by
      refine List.Nodup.sublist ?_ hn
      exact List.Sublist.map TaskRecord.id (List.filter_sublist store)
    exact foldl_register_get_mem _ _ t hnd2 htf hts

/-- C7: the active-timer registry contains exactly the live timers.  Loading
at process start establishes the correspondence for any store with unique
ids whose live records carry a startedAt, every timer operation
(Start inserting, Pause and Resume updating in place, Stop and Reset
removing, failures changing nothing) preserves it, and so does each
reconciliation tick (natural completion removes the completed entries):
afterwards a stored task has a registry entry if and only if its status is
Running or Paused. -/
theorem C7_registry_matches_live_timers :
    (∀ store : List TaskRecord, (store.map TaskRecord.id).Nodup →
      startedInv store → regInv store (loadActiveTimers store)) ∧
    (∀ (store : List TaskRecord) (reg : Registry) (taskId userId : Nat)
        (op : TimerOperation) (now : Int),
      (store.map TaskRecord.id).Nodup → regInv store reg →
      regInv (handleTimerOperation store reg taskId userId op now).store
             (handleTimerOperation store reg taskId userId op now).registry) ∧
    (∀ (st : TickState) (now : Int),
      (st.store.map TaskRecord.id).Nodup → regInv st.store st.registry →
      regInv (checkActiveTimers st now).store
             (checkActiveTimers st now).registry) :=
  ⟨load_establishes_regInv,
   fun store reg taskId userId op now hn hinv =>
     handle_preserves_regInv store reg taskId userId op now hn hinv,
   fun st now hn hinv => tick_preserves_regInv st now hn hinv⟩

/-- Witness for C7: the correspondence evaluated on the concrete three-task
store (load), on a Stop operation against it, and on one reconciliation tick
of the single-task live state. -/
theorem C7_registry_matches_live_timers_witness :
    regInv statusStore (loadActiveTimers statusStore) ∧
    regInv (handleTimerOperation statusStore statusReg 11 4
              TimerOperation.stop 1000).store
           (handleTimerOperation statusStore statusReg 11 4
              TimerOperation.stop 1000).registry ∧
    regInv (checkActiveTimers stopFixtureState 1000).store
           (checkActiveTimers stopFixtureState 1000).registry :=
  ⟨C7_registry_matches_live_timers.1 statusStore (by decide) (by decide),
   C7_registry_matches_live_timers.2.1 statusStore statusReg 11 4
     TimerOperation.stop 1000 (by decide) (by decide),
   C7_registry_matches_live_timers.2.2 stopFixtureState 1000 (by decide) (by decide)⟩
